import Mathlib

set_option maxHeartbeats 1000000

/-!
Shallow embedding of the x402-oracle price/risk analytics engine and the
median consensus aggregator (Rust sources under `src/seda-core` and the
`src/seda-cronos` examples).

Machine integers are modelled as `Nat` with explicit bounds:
`ethereum_types::U256` checked operations (`+`, `*`, `as_u128`) panic on
overflow and are modelled as `Except`/`Option` failures, `saturating_mul` /
`saturating_sub` clamp, and `u128` values carry `< 2^128` side conditions in
the theorems that need them.
-/

namespace SedaCore

/-- `SCALE` constant (seda-core execution_phase.rs line 24): 1 unit = 10⁻⁶. -/
def SCALE : Nat := 1000000

/-- Largest value representable by `ethereum_types::U256`. -/
def U256_MAX : Nat := 2 ^ 256 - 1

/-- Largest value representable by `u128`. -/
def U128_MAX : Nat := 2 ^ 128 - 1

/-- Liquidity target constant (execution_phase.rs line 26). -/
def LIQUIDITY_TARGET_USDC_1E6 : Nat := 500000000000

/-- Divergence warning threshold constant (execution_phase.rs line 29). -/
def DIVERGENCE_WARN_1E6 : Nat := 50000

/-- Slippage limit constant (execution_phase.rs line 30). -/
def SLIPPAGE_LIMIT_1E6 : Nat := 10000

/-- `u256_to_u128` (execution_phase.rs lines 309-314): errs when the value
exceeds `u128::MAX`. -/
def u256_to_u128 (value : Nat) : Except String Nat :=
  if U128_MAX < value then .error "Value exceeds u128 range" else .ok value

/-- `abs_diff_u128` (execution_phase.rs lines 316-322). -/
def abs_diff_u128 (a b : Nat) : Nat :=
  if b ≤ a then a - b else b - a

/-- `ratio_scaled_u128` (execution_phase.rs lines 324-330):
`(numerator * SCALE) / denominator` computed in `U256` (no overflow there for
`u128` arguments), then `value.as_u128()` — which panics when the quotient
does not fit `u128` — and finally capped at `SCALE`. The panic is modelled as
an error value. -/
def ratio_scaled_u128 (numerator denominator : Nat) : Except String Nat :=
  if denominator = 0 then .error "Division by zero"
  else
    let value := numerator * SCALE / denominator
    if U128_MAX < value then .error "panic: as_u128 overflow"
    else .ok (min value SCALE)

/-- `liquidity_score` (execution_phase.rs lines 332-339). The `Result`
wrapper in the source never errs (both branches return `Ok` and the
`as_u128` cast is in range because `quote_reserve < target` in that branch),
so the model returns `Nat` directly. -/
def liquidity_score (quote_reserve : Nat) : Nat :=
  if LIQUIDITY_TARGET_USDC_1E6 ≤ quote_reserve then SCALE
  else quote_reserve * SCALE / LIQUIDITY_TARGET_USDC_1E6

/-- `temporal_score` (execution_phase.rs lines 341-348); the
`saturating_sub` is an exact `Nat` subtraction here since the penalty never
exceeds `SCALE` in the taken branch. -/
def temporal_score (delta_1e6 : Nat) : Nat :=
  if DIVERGENCE_WARN_1E6 ≤ delta_1e6 then 0
  else SCALE - delta_1e6 * SCALE / DIVERGENCE_WARN_1E6

/-- Confidence score (execution_phase.rs lines 72-75):
`(600000·liquidity + 400000·time) / SCALE` computed in `U256`. -/
def confidence_score (l t : Nat) : Nat :=
  (600000 * l + 400000 * t) / SCALE

/-- Fair price blend (execution_phase.rs line 67):
`(spot_now.saturating_mul(2) + price_24h) / 3` on `u128`. The saturating
double clamps at `u128::MAX`; the subsequent `+` is an unchecked `u128`
addition whose overflow (panic with debug assertions, wrap otherwise) is
modelled as failure — in the non-overflowing range both semantics agree
with this model. -/
def fair_price (spot_now price_24h : Nat) : Option Nat :=
  let twice := min (2 * spot_now) U128_MAX
  if twice + price_24h ≤ U128_MAX then some ((twice + price_24h) / 3)
  else none

end SedaCore

open SedaCore

/-- **C8.** Each produced score lies in `[0, SCALE]`: the liquidity score is
at most `SCALE` for every quote reserve, the temporal score is at most
`SCALE` for every delta, and the 60/40-weighted confidence score is at most
`SCALE` whenever both input scores are. (Lower bounds are inherent to the
unsigned model.) -/
theorem scores_bounded_by_scale :
    (∀ q : Nat, liquidity_score q ≤ SCALE)
    ∧ (∀ d : Nat, temporal_score d ≤ SCALE)
    ∧ (∀ l t : Nat, l ≤ SCALE → t ≤ SCALE → confidence_score l t ≤ SCALE) := by
  refine ⟨fun q => ?_, fun d => ?_, fun l t hl ht => ?_⟩
  · unfold liquidity_score
    split
    · exact Nat.le_refl _
    · rename_i h
      have hq : q ≤ LIQUIDITY_TARGET_USDC_1E6 := Nat.le_of_lt (Nat.lt_of_not_le h)
      calc q * SCALE / LIQUIDITY_TARGET_USDC_1E6
          ≤ LIQUIDITY_TARGET_USDC_1E6 * SCALE / LIQUIDITY_TARGET_USDC_1E6 :=
            Nat.div_le_div_right (Nat.mul_le_mul_right _ hq)
        _ = SCALE := by decide
  · unfold temporal_score
    split
    · exact Nat.zero_le _
    · exact Nat.sub_le _ _
  · calc confidence_score l t
        = (600000 * l + 400000 * t) / SCALE := rfl
      _ ≤ (600000 * SCALE + 400000 * SCALE) / SCALE :=
          Nat.div_le_div_right
            (Nat.add_le_add (Nat.mul_le_mul_left _ hl) (Nat.mul_le_mul_left _ ht))
      _ = SCALE := by decide

/-- **C8 witness.** The bounds instantiated at concrete scores. -/
theorem scores_bounded_by_scale_witness :
    liquidity_score 250000000000 ≤ SCALE
    ∧ temporal_score 10000 ≤ SCALE
    ∧ confidence_score 500000 800000 ≤ SCALE :=
  ⟨scores_bounded_by_scale.1 250000000000,
   scores_bounded_by_scale.2.1 10000,
   scores_bounded_by_scale.2.2 500000 800000 (by decide) (by decide)⟩

/-- **C7 (amended).** `ratio_scaled_u128` fails with the division-by-zero
error iff the denominator is zero; when the quotient
`⌊numerator·SCALE/denominator⌋` fits `u128` it returns that quotient capped
at `SCALE`; but when the quotient exceeds `u128::MAX` the `as_u128` cast
panics instead of returning the cap. -/
theorem ratio_scaled_zero_and_cap :
    (∀ n : Nat, ratio_scaled_u128 n 0 = .error "Division by zero")
    ∧ (∀ n d : Nat, d ≠ 0 → n * SCALE / d ≤ U128_MAX →
        ratio_scaled_u128 n d = .ok (min (n * SCALE / d) SCALE))
    ∧ (∀ n d : Nat, d ≠ 0 → U128_MAX < n * SCALE / d →
        ratio_scaled_u128 n d = .error "panic: as_u128 overflow") := by
  refine ⟨fun n => rfl, fun n d hd hle => ?_, fun n d hd hgt => ?_⟩
  · simp [ratio_scaled_u128, if_neg hd, Nat.not_lt.mpr hle]
  · simp only [ratio_scaled_u128, if_neg hd, if_pos hgt]

/-- **C7 witness.** The capped-ratio branch instantiated concretely:
`ratio_scaled_u128 7 2 = min 3500000 SCALE = SCALE`. -/
theorem ratio_scaled_zero_and_cap_witness :
    ratio_scaled_u128 7 2 = .ok (min (7 * SCALE / 2) SCALE) :=
  ratio_scaled_zero_and_cap.2.1 7 2 (by decide) (by decide)

/-- **C7 counterexample.** For the `u128` inputs `numerator = u128::MAX`,
`denominator = 1` the claim requires the capped result `SCALE`, but the code
panics in `as_u128` because the uncapped quotient exceeds `u128::MAX`. -/
theorem ratio_scaled_panics_at_max :
    ratio_scaled_u128 (2 ^ 128 - 1) 1 = .error "panic: as_u128 overflow" := by
  have h : U128_MAX < (2 ^ 128 - 1) * SCALE / 1 := by decide
  simp only [ratio_scaled_u128, if_neg (by decide : (1 : Nat) ≠ 0), if_pos h]

/-- **C6 (amended).** Whenever `2·spot_now + price_24h` fits in `u128`, the
fair price equals `(2·spot_now + price_24h) / 3` with exact truncating
integer division; outside that range the saturating double (or the
overflowing addition) changes the value. -/
theorem fair_price_exact :
    ∀ spot p24 : Nat, 2 * spot + p24 ≤ U128_MAX →
      fair_price spot p24 = some ((2 * spot + p24) / 3) := by
  intro spot p24 h
  have h2 : 2 * spot ≤ U128_MAX := Nat.le_trans (Nat.le_add_right _ _) h
  unfold fair_price
  rw [min_eq_left h2, if_pos h]

/-- **C6 witness.** `fair_price 10 5 = (2·10 + 5)/3 = 8`. -/
theorem fair_price_exact_witness : fair_price 10 5 = some ((2 * 10 + 5) / 3) :=
  fair_price_exact 10 5 (by decide)

/-- **C6 counterexample.** At `spot_now = 2^127 + 1`, `price_24h = 0` the
code saturates the double at `u128::MAX` and returns `(2^128 - 1)/3`, which
differs (by one) from the exact `(2·spot_now + price_24h)/3` required by the
claim. -/
theorem fair_price_saturates_at_large_spot :
    fair_price (2 ^ 127 + 1) 0 = some ((2 ^ 128 - 1) / 3)
    ∧ (2 ^ 128 - 1) / 3 ≠ (2 * (2 ^ 127 + 1) + 0) / 3 := by
  constructor
  · rfl
  · decide

/-- Insertion of a value into a sorted `Nat` list; `sortNat` below is the
model of Rust's ascending `sort()` / `sort_unstable()` on integer vectors
(for `Nat` keys every correct sort yields the same sorted permutation). -/
def insertSorted (x : Nat) : List Nat → List Nat
  | [] => [x]
  | y :: ys => if x ≤ y then x :: y :: ys else y :: insertSorted x ys

/-- Ascending sort on `Nat` lists (model of `sort()` / `sort_unstable()`). -/
def sortNat (l : List Nat) : List Nat := l.foldr insertSorted []

/-- Outcome of a tally run: the host sees either a success payload, an
explicit failure message (`Process::error`, which halts the program), or a
panic (process abort with no reported result). -/
inductive TallyOutcome where
  | success (bytes : List Nat)
  | failure (msg : String)
  | panic
  deriving DecidableEq

namespace SedaCore

/-- `median_sorted` (seda-core tally_phase.rs lines 84-91). The even-length
midpoint is `(values[mid - 1] + values[mid]) / 2`, where `+` is the checked
`U256` addition of `ethereum_types`, which panics on overflow (modelled as
`none`); an out-of-bounds index (empty input) also panics. -/
def median_sorted (values : List Nat) : Option Nat :=
  let mid := values.length / 2
  if values.length % 2 = 0 then
    match values[mid - 1]?, values[mid]? with
    | some a, some b => if a + b ≤ U256_MAX then some ((a + b) / 2) else none
    | _, _ => none
  else values[mid]?

/-- Intermediate result of `median_each_field`: a value, a propagated
`anyhow` error, or a panic from `median_sorted`. -/
inductive MedianResult where
  | ok (vals : List Nat)
  | err (msg : String)
  | panic
  deriving DecidableEq

/-- `median_each_field` (tally_phase.rs lines 67-82): require a non-empty
set of rows, all of arity 4; sort each of the 4 columns and take its
median. -/
def median_each_field (values : List (List Nat)) : MedianResult :=
  if values = [] then .err "No values to aggregate"
  else if ¬ (values.all fun row => row.length = 4) then
    .err "Mismatched value length in reveals"
  else
    let cols := (List.range 4).map fun idx =>
      median_sorted (sortNat (values.map fun row => row.getD idx 0))
    match cols.mapM id with
    | some medians => .ok medians
    | none => .panic

/-- Big-endian value of a byte list. -/
def beWordValue (bytes : List Nat) : Nat := bytes.foldl (fun acc b => acc * 256 + b) 0

/-- 32-byte big-endian encoding of a word, as emitted by `ethabi::encode`
for `Token::Int`. -/
def wordBytes (n : Nat) : List Nat := (List.range 32).map fun i => n / 256 ^ (31 - i) % 256

/-- `ethabi`'s `peek_32_bytes`: read the 32-byte word at `off`, failing when
fewer than 32 bytes remain. -/
def wordAt (bytes : List Nat) (off : Nat) : Option Nat :=
  if off + 32 ≤ bytes.length then some (beWordValue ((bytes.drop off).take 32)) else none

/-- `ethabi`'s `as_usize` on a word: fails unless the top 28 bytes are zero. -/
def word_as_usize (w : Nat) : Option Nat := if w < 2 ^ 32 then some w else none

/-- Sequential decoding of `n` static `int256` words starting at `off`. -/
def readWords (bytes : List Nat) : Nat → Nat → Option (List Nat)
  | _, 0 => some []
  | off, n + 1 =>
    match wordAt bytes off with
    | none => none
    | some w => (readWords bytes (off + 32) n).map (w :: ·)

/-- `ethabi::decode(&[ParamType::Array(Int(256))], bytes)` specialised to
the single parameter type used by the tally phase: empty input is invalid,
then read the offset word, the length word at that offset, and `len`
consecutive `int256` words (kept as raw `U256` two's-complement words, as
the source does). -/
def abi_decode_int_array (bytes : List Nat) : Option (List Nat) :=
  if bytes.length = 0 then none
  else match wordAt bytes 0 with
  | none => none
  | some ow =>
    match word_as_usize ow with
    | none => none
    | some lenOff =>
      match wordAt bytes lenOff with
      | none => none
      | some lw =>
        match word_as_usize lw with
        | none => none
        | some len => readWords bytes (lenOff + 32) len

/-- `ethabi::encode(&[Token::Array(values.map(Token::Int))])`: offset word
`0x20`, length word, then one word per value. -/
def abi_encode_int_array (vals : List Nat) : List Nat :=
  wordBytes 32 ++ wordBytes vals.length ++ vals.foldr (fun v acc => wordBytes v ++ acc) []

/-- `decode_values` (tally_phase.rs lines 45-65): ABI-decode an `int256[]`
and require exactly 4 entries. -/
def decode_values (bytes : List Nat) : Option (List Nat) :=
  match abi_decode_int_array bytes with
  | none => none
  | some array => if array.length = 4 then some array else none

/-- `tally_phase` composed with `tally_phase_inner` (tally_phase.rs lines
5-43): reveals that fail to decode are logged and skipped; zero surviving
reveals reports the no-consensus failure (`Process::error` halts the
program, so nothing further runs); otherwise the per-field medians are
ABI-encoded and reported as success. An error propagated by `?` out of
`tally_phase_inner` is reported by the wrapper with the `Tally error: `
prefix. -/
def tally_phase (reveals : List (List Nat)) : TallyOutcome :=
  let revealed_values := reveals.filterMap decode_values
  if revealed_values = [] then .failure "No consensus among revealed results"
  else match median_each_field revealed_values with
    | .err e => .failure ("Tally error: " ++ e)
    | .panic => .panic
    | .ok final_values => .success (abi_encode_int_array final_values)

end SedaCore

namespace Caplight

/-- caplight `median` (caplight tally_phase.rs lines 37-53). On an empty
slice the source reports an error and halts, modelled as `none`. The
even-length case uses `u128::midpoint`, whose documented semantics is
`(a + b) / 2` rounded down computed without overflow — exact in the `Nat`
model. -/
def median (data : List Nat) : Option Nat :=
  let m := data.length
  if m = 0 then none
  else
    let sorted_data := sortNat data
    if m % 2 = 0 then
      match sorted_data[m / 2 - 1]?, sorted_data[m / 2]? with
      | some a, some b => some ((a + b) / 2)
      | _, _ => none
    else sorted_data[m / 2]?

/-- Little-endian `u128` reveal decoding (caplight tally_phase.rs lines
10-16): `try_into::<[u8; 16]>` fails unless the payload is exactly 16
bytes. -/
def decode_reveal_u128 (bytes : List Nat) : Option Nat :=
  if bytes.length = 16 then some (bytes.foldr (fun b acc => acc * 256 + b) 0) else none

/-- caplight `tally_phase` (lines 5-35): skip undecodable reveals, report
the no-consensus failure when none survive, else ABI-encode the single
median price. -/
def tally_phase (reveals : List (List Nat)) : TallyOutcome :=
  let revealed_prices := reveals.filterMap decode_reveal_u128
  if revealed_prices = [] then .failure "No consensus among revealed results"
  else match median revealed_prices with
    | some final_price => .success (SedaCore.abi_encode_int_array [final_price])
    | none => .failure "No valid data available for median calculation"

end Caplight

/-- **C1 (amended).** Odd-length medians are the exact middle element in
both aggregators. For even length: the caplight `u128` median is the floor
midpoint of the two central values of the sorted list, computable in the
overflow-safe form `low + (high - low)/2` (so it is exact even at the
type's upper bound); the seda-core `median_sorted`, however, computes
`(low + high)/2` with a checked `U256` addition, so it equals the floor
midpoint only when `low + high ≤ U256::MAX` and panics when the sum
overflows. -/
theorem median_midpoint_amended :
    (∀ values : List Nat, values.length % 2 = 1 →
      SedaCore.median_sorted values = values[values.length / 2]?)
    ∧ (∀ values : List Nat, values.length % 2 = 0 →
        ∀ a b : Nat, values[values.length / 2 - 1]? = some a →
          values[values.length / 2]? = some b →
          (a + b ≤ U256_MAX → SedaCore.median_sorted values = some ((a + b) / 2))
          ∧ (U256_MAX < a + b → SedaCore.median_sorted values = none))
    ∧ (∀ data : List Nat, data ≠ [] → data.length % 2 = 1 →
        Caplight.median data = (sortNat data)[data.length / 2]?)
    ∧ (∀ data : List Nat, data.length % 2 = 0 →
        ∀ a b : Nat, (sortNat data)[data.length / 2 - 1]? = some a →
          (sortNat data)[data.length / 2]? = some b → a ≤ b →
          Caplight.median data = some (a + (b - a) / 2)) := by
  refine ⟨fun values h => ?_, fun values h a b ha hb => ?_,
    fun data hne hodd => ?_, fun data heven a b ha hb hab => ?_⟩
  · have h0 : ¬ values.length % 2 = 0 := by omega
    simp [SedaCore.median_sorted, h0]
  · constructor
    · intro hsum
      simp [SedaCore.median_sorted, h, ha, hb, hsum]
    · intro hsum
      simp [SedaCore.median_sorted, h, ha, hb, Nat.not_le.mpr hsum]
  · have hm : ¬ data.length = 0 := fun h => hne (List.length_eq_zero.mp h)
    have h0 : ¬ data.length % 2 = 0 := by omega
    simp [Caplight.median, hm, h0]
  · have hm : ¬ data.length = 0 := by
      intro h0
      rw [List.length_eq_zero.mp h0] at ha
      simp [sortNat] at ha
    have heq : (a + b) / 2 = a + (b - a) / 2 := by omega
    simp [Caplight.median, hm, heven, ha, hb, heq]

/-- **C1 witness.** The spec's own test vector: `median([1,2,3,4]) = 2`
(floor midpoint of 2 and 3) in both aggregators, and `median([1,2,3]) = 2`
for odd length. -/
theorem median_midpoint_amended_witness :
    SedaCore.median_sorted [1, 2, 3] = [1, 2, 3][1]?
    ∧ SedaCore.median_sorted [1, 2, 3, 4] = some ((2 + 3) / 2)
    ∧ Caplight.median [1, 2, 3, 4] = some (2 + (3 - 2) / 2) :=
  ⟨median_midpoint_amended.1 [1, 2, 3] (by decide),
   (median_midpoint_amended.2.1 [1, 2, 3, 4] (by decide) 2 3 (by decide) (by decide)).1
     (by decide),
   median_midpoint_amended.2.2.2 [1, 2, 3, 4] (by decide) 2 3 (by decide) (by decide)
     (by decide)⟩

/-- **C1 counterexample.** With both central values at `U256::MAX`, the
seda-core even-length median panics on the `U256` addition instead of
returning the floor midpoint `U256::MAX` required by the claim's
overflow-safe form. -/
theorem median_sorted_overflows_at_max :
    SedaCore.median_sorted [2 ^ 256 - 1, 2 ^ 256 - 1] = none := by
  simp [SedaCore.median_sorted, U256_MAX]

/-- **C2.** If zero reveals decode successfully, both tally variants report
the explicit no-consensus failure, and in particular never a success or a
default/zero result. -/
theorem tally_no_consensus_on_zero_reveals :
    (∀ reveals : List (List Nat),
      (∀ r ∈ reveals, SedaCore.decode_values r = none) →
      SedaCore.tally_phase reveals = .failure "No consensus among revealed results")
    ∧ (∀ reveals : List (List Nat),
      (∀ r ∈ reveals, Caplight.decode_reveal_u128 r = none) →
      Caplight.tally_phase reveals = .failure "No consensus among revealed results") := by
  constructor
  · intro reveals h
    have hnil : reveals.filterMap SedaCore.decode_values = [] :=
      List.filterMap_eq_nil_iff.mpr h
    simp [SedaCore.tally_phase, hnil]
  · intro reveals h
    have hnil : reveals.filterMap Caplight.decode_reveal_u128 = [] :=
      List.filterMap_eq_nil_iff.mpr h
    simp [Caplight.tally_phase, hnil]

/-- **C2 witness.** A batch with one undecodable single-byte reveal yields
the no-consensus failure in both variants. -/
theorem tally_no_consensus_witness :
    SedaCore.tally_phase [[0]] = .failure "No consensus among revealed results"
    ∧ Caplight.tally_phase [[0]] = .failure "No consensus among revealed results" :=
  ⟨tally_no_consensus_on_zero_reveals.1 [[0]] (by decide),
   tally_no_consensus_on_zero_reveals.2 [[0]] (by decide)⟩

/-- Discarding the reveals on which a decoder fails does not change the
result of `filterMap`-style accumulation. -/
theorem filterMap_filter_isSome {α β : Type} (f : α → Option β) (l : List α) :
    (l.filter fun a => (f a).isSome).filterMap f = l.filterMap f := by
  induction l with
  | nil => rfl
  | cons a l ih =>
    by_cases h : (f a).isSome
    · cases hfa : f a with
      | none => rw [hfa] at h; simp at h
      | some b => simp [List.filter_cons, List.filterMap_cons, h, hfa, ih]
    · have hfa : f a = none := Option.not_isSome_iff_eq_none.mp h
      simp [List.filter_cons, List.filterMap_cons, h, hfa, ih]

/-- **C5.** In both tally variants, a reveal whose payload fails to decode
is discarded and the outcome equals the outcome of tallying only the
successfully decoded reveals — one bad reveal never aborts the batch. -/
theorem tally_ignores_undecodable_reveals :
    (∀ reveals : List (List Nat),
      SedaCore.tally_phase reveals =
        SedaCore.tally_phase
          (reveals.filter fun r => (SedaCore.decode_values r).isSome))
    ∧ (∀ reveals : List (List Nat),
      Caplight.tally_phase reveals =
        Caplight.tally_phase
          (reveals.filter fun r => (Caplight.decode_reveal_u128 r).isSome)) := by
  constructor
  · intro reveals
    unfold SedaCore.tally_phase
    rw [filterMap_filter_isSome]
  · intro reveals
    unfold Caplight.tally_phase
    rw [filterMap_filter_isSome]

namespace SedaCore

/-- `u256_from_be_slice` (seda-core execution_phase.rs lines 294-299, and
identically evm-price-feed lines 321-326): copy the slice into a zeroed
32-byte buffer starting at `32 - len` (saturating) and decode big-endian.
For a slice longer than 32 bytes the internal `copy_from_slice` length
check panics, modelled as `none`. -/
def u256_from_be_slice (slice : List Nat) : Option Nat :=
  if slice.length ≤ 32 then
    some (beWordValue (List.replicate (32 - slice.length) 0 ++ slice))
  else none

/-- Reserve-word extraction of `get_reserves` (seda-core execution_phase.rs
lines 188-199) after hex decoding: guard `len ≥ 96`, then decode
`bytes[0..32]` and `bytes[32..64]`. -/
def get_reserves_decode (bytes : List Nat) : Except String (Nat × Nat) :=
  if bytes.length < 96 then .error "Reserves result too short"
  else
    match u256_from_be_slice (bytes.take 32),
        u256_from_be_slice ((bytes.drop 32).take 32) with
    | some r0, some r1 => .ok (r0, r1)
    | _, _ => .error "panic: copy_from_slice length mismatch"

end SedaCore

namespace EvmPriceFeed

/-- Reserve-word extraction of `price_from_v2` (evm-price-feed
execution_phase.rs lines 174-179): guard `len ≥ 64`, then decode
`bytes[0..32]` and `bytes[32..64]`. -/
def reserves_slices_decode (bytes : List Nat) : Except String (Nat × Nat) :=
  if bytes.length < 64 then .error "Reserves result too short"
  else
    match SedaCore.u256_from_be_slice (bytes.take 32),
        SedaCore.u256_from_be_slice ((bytes.drop 32).take 32) with
    | some r0, some r1 => .ok (r0, r1)
    | _, _ => .error "panic: copy_from_slice length mismatch"

/-- `sqrtPriceX96` extraction of `price_from_v3` (evm-price-feed
execution_phase.rs lines 214-218): guard `len ≥ 32`, then decode
`bytes[0..32]`. -/
def slot0_slice_decode (bytes : List Nat) : Except String Nat :=
  if bytes.length < 32 then .error "slot0 result too short"
  else
    match SedaCore.u256_from_be_slice (bytes.take 32) with
    | some w => .ok w
    | none => .error "panic: copy_from_slice length mismatch"

end EvmPriceFeed

/-- Folding the big-endian accumulator over leading zero bytes leaves it at
zero. -/
theorem foldl_be_replicate_zero (k : Nat) :
    (List.replicate k 0).foldl (fun acc b => acc * 256 + b) 0 = 0 := by
  induction k with
  | zero => rfl
  | succ k ih => simp [List.replicate_succ, ih]

/-- Left zero-padding does not change the big-endian value. -/
theorem beWordValue_pad (k : Nat) (s : List Nat) :
    SedaCore.beWordValue (List.replicate k 0 ++ s) = SedaCore.beWordValue s := by
  unfold SedaCore.beWordValue
  rw [List.foldl_append, foldl_be_replicate_zero]

/-- For a slice of at most 32 bytes the decoder returns the big-endian value
of the slice itself. -/
theorem u256_from_be_slice_eq {s : List Nat} (h : s.length ≤ 32) :
    SedaCore.u256_from_be_slice s = some (SedaCore.beWordValue s) := by
  unfold SedaCore.u256_from_be_slice
  rw [if_pos h, beWordValue_pad]

/-- **C10.** `u256_from_be_slice` returns the left-zero-padded big-endian
value of any slice of at most 32 bytes, panics (rather than truncating) on
any longer slice, and every call site in the repository — the seda-core
`get_reserves` decoding and the evm-price-feed v2/v3 decodings — passes
slices of exactly 32 bytes under its length guard, so the panic is
unreachable in the pipelines. -/
theorem u256_from_be_slice_safe :
    (∀ slice : List Nat, slice.length ≤ 32 →
      SedaCore.u256_from_be_slice slice = some (SedaCore.beWordValue slice))
    ∧ (∀ slice : List Nat, 32 < slice.length →
      SedaCore.u256_from_be_slice slice = none)
    ∧ (∀ bytes : List Nat, 96 ≤ bytes.length →
      SedaCore.get_reserves_decode bytes =
        .ok (SedaCore.beWordValue (bytes.take 32),
          SedaCore.beWordValue ((bytes.drop 32).take 32)))
    ∧ (∀ bytes : List Nat, 64 ≤ bytes.length →
      EvmPriceFeed.reserves_slices_decode bytes =
        .ok (SedaCore.beWordValue (bytes.take 32),
          SedaCore.beWordValue ((bytes.drop 32).take 32)))
    ∧ (∀ bytes : List Nat, 32 ≤ bytes.length →
      EvmPriceFeed.slot0_slice_decode bytes =
        .ok (SedaCore.beWordValue (bytes.take 32))) := by
  have htake : ∀ (l : List Nat), (l.take 32).length ≤ 32 := fun l =>
    List.length_take_le 32 l
  refine ⟨fun s h => u256_from_be_slice_eq h, fun s h => ?_,
    fun bytes h => ?_, fun bytes h => ?_, fun bytes h => ?_⟩
  · unfold SedaCore.u256_from_be_slice
    rw [if_neg (by omega)]
  · unfold SedaCore.get_reserves_decode
    rw [if_neg (by omega), u256_from_be_slice_eq (htake _),
      u256_from_be_slice_eq (htake _)]
  · unfold EvmPriceFeed.reserves_slices_decode
    rw [if_neg (by omega), u256_from_be_slice_eq (htake _),
      u256_from_be_slice_eq (htake _)]
  · unfold EvmPriceFeed.slot0_slice_decode
    rw [if_neg (by omega), u256_from_be_slice_eq (htake _)]

/-- **C10 witness.** A concrete 96-byte `getReserves` word triple decodes to
its first two big-endian words. -/
theorem u256_from_be_slice_safe_witness :
    SedaCore.get_reserves_decode
        (SedaCore.wordBytes 7 ++ SedaCore.wordBytes 9 ++ SedaCore.wordBytes 3) =
      .ok (SedaCore.beWordValue
          ((SedaCore.wordBytes 7 ++ SedaCore.wordBytes 9 ++ SedaCore.wordBytes 3).take 32),
        SedaCore.beWordValue
          (((SedaCore.wordBytes 7 ++ SedaCore.wordBytes 9 ++ SedaCore.wordBytes 3).drop 32).take 32)) :=
  u256_from_be_slice_safe.2.2.1
    (SedaCore.wordBytes 7 ++ SedaCore.wordBytes 9 ++ SedaCore.wordBytes 3) (by decide)

namespace SedaCore

/-- ASCII lower-casing of one character (`u8::to_ascii_lowercase`). -/
def asciiLower (c : Char) : Char :=
  if 'A' ≤ c ∧ c ≤ 'Z' then Char.ofNat (c.toNat + 32) else c

/-- `str::eq_ignore_ascii_case`. -/
def eqIgnoreAsciiCase (a b : List Char) : Bool :=
  a.map asciiLower == b.map asciiLower

/-- `pow10_u256` (execution_phase.rs lines 301-307): `exp` saturating
multiplications by 10 starting from 1. -/
def pow10_u256 : Nat → Nat
  | 0 => 1
  | e + 1 => min (pow10_u256 e * 10) U256_MAX

/-- `U256::saturating_mul`. -/
def satMul (a b : Nat) : Nat := min (a * b) U256_MAX

/-- `PairConfig` (execution_phase.rs lines 110-116); the pair address plays
no role in the price computation and is omitted. -/
structure PairConfig where
  base : List Char
  quote : List Char
  base_decimals : Nat
  quote_decimals : Nat

/-- `price_from_reserves` (execution_phase.rs lines 164-186): resolve the
base/quote reserve ordering by case-insensitive comparison of `token0`
against the configured addresses, reject a zero base reserve, then compute
`quote_reserve·10^base_decimals·SCALE / (base_reserve·10^quote_decimals)`
with saturating multiplications and a final range-checked narrowing to
`u128`. -/
def price_from_reserves (config : PairConfig) (token0 : List Char)
    (reserve0 reserve1 : Nat) : Except String Nat :=
  match (if eqIgnoreAsciiCase token0 config.base then some (reserve0, reserve1)
      else if eqIgnoreAsciiCase token0 config.quote then some (reserve1, reserve0)
      else none) with
  | none => .error "token0 mismatch for pair"
  | some (base_reserve, quote_reserve) =>
    if base_reserve = 0 then .error "Base reserve is zero"
    else
      let scale := pow10_u256 config.base_decimals
      let quote_scale := pow10_u256 config.quote_decimals
      let numerator := satMul (satMul quote_reserve scale) SCALE
      let denominator := satMul base_reserve quote_scale
      u256_to_u128 (numerator / denominator)

end SedaCore

/-- The saturating power-of-ten table clamps exactly at `U256::MAX`. -/
theorem pow10_u256_eq_min (e : Nat) : pow10_u256 e = min (10 ^ e) U256_MAX := by
  induction e with
  | zero =>
    have h1 : (1 : Nat) ≤ U256_MAX := by decide
    simp [SedaCore.pow10_u256, Nat.min_eq_left h1]
  | succ e ih =>
    rw [SedaCore.pow10_u256, ih]
    rcases Nat.le_total (10 ^ e) U256_MAX with h | h
    · rw [Nat.min_eq_left h, ← Nat.pow_succ]
    · have h10 : U256_MAX ≤ 10 ^ (e + 1) :=
        Nat.le_trans h (Nat.pow_le_pow_right (by decide) (Nat.le_succ e))
      have hm : U256_MAX ≤ U256_MAX * 10 :=
        Nat.le_mul_of_pos_right _ (by decide)
      rw [Nat.min_eq_right h, Nat.min_eq_right hm, Nat.min_eq_right h10]

/-- For exponents up to 77 the saturating power of ten is exact. -/
theorem pow10_u256_exact {e : Nat} (h : e ≤ 77) : pow10_u256 e = 10 ^ e := by
  rw [pow10_u256_eq_min]
  exact Nat.min_eq_left
    (Nat.le_trans (Nat.pow_le_pow_right (by decide) h) (by decide))

namespace EvmPriceFeed

/-- `str::to_lowercase` restricted to ASCII, as applied to the configured
addresses in `price_from_v2` (the addresses are ASCII hex strings). -/
def lowerAscii (cs : List Char) : List Char := cs.map SedaCore.asciiLower

/-- `V2Config` (evm-price-feed execution_phase.rs lines 115-121); the pair
address is consumed only by the RPC call and is omitted. -/
structure V2Config where
  base : List Char
  quote : List Char
  base_decimals : Nat
  quote_decimals : Nat

/-- The pricing core of `price_from_v2` (evm-price-feed execution_phase.rs
lines 185-207), after the two RPC fetches have produced `reserve0`,
`reserve1` and `token0`: lower-case the configured addresses, resolve the
reserve ordering by case-insensitive comparison with `token0`, reject a
zero base reserve, then compute
`quote_reserve·10^(base_decimals+6) / (base_reserve·10^(quote_decimals))`
with saturating multiplications and a range-checked narrowing to `u128`. -/
def price_from_v2_core (config : V2Config) (token0 : List Char)
    (reserve0 reserve1 : Nat) : Except String Nat :=
  let base := lowerAscii config.base
  let quote := lowerAscii config.quote
  match (if SedaCore.eqIgnoreAsciiCase token0 base then some (reserve0, reserve1)
      else if SedaCore.eqIgnoreAsciiCase token0 quote then some (reserve1, reserve0)
      else none) with
  | none => .error "token0 mismatch for pair"
  | some (base_reserve, quote_reserve) =>
    if base_reserve = 0 then .error "Base reserve is zero"
    else
      let scale := SedaCore.pow10_u256 (config.base_decimals + 6)
      let quote_scale := SedaCore.pow10_u256 config.quote_decimals
      let numerator := SedaCore.satMul quote_reserve scale
      let denominator := SedaCore.satMul base_reserve quote_scale
      SedaCore.u256_to_u128 (numerator / denominator)

end EvmPriceFeed

/-- **C4 (amended).** In both the seda-core `price_from_reserves` and the
evm-price-feed `price_from_v2` pricing core: if `token0` matches
(case-insensitively) neither configured address, derivation fails with the
token-mismatch error; if `token0` matches and the resolved base-side
reserve is zero, it fails with the zero-reserve error — without dividing;
otherwise, for either orientation of `token0`, it returns exactly
`⌊quote_reserve·10^(base_decimals)·SCALE / (base_reserve·10^(quote_decimals))⌋`
provided the intermediate products stay within `U256` (otherwise the
saturating multiplications clamp them) and the quotient fits `u128`
(otherwise the narrowing fails). -/
theorem price_from_reserves_amended :
    (∀ (cfg : SedaCore.PairConfig) (tok : List Char) (r0 r1 : Nat),
      SedaCore.eqIgnoreAsciiCase tok cfg.base = false →
      SedaCore.eqIgnoreAsciiCase tok cfg.quote = false →
      SedaCore.price_from_reserves cfg tok r0 r1 = .error "token0 mismatch for pair")
    ∧ (∀ (cfg : SedaCore.PairConfig) (tok : List Char) (r1 : Nat),
      SedaCore.eqIgnoreAsciiCase tok cfg.base = true →
      SedaCore.price_from_reserves cfg tok 0 r1 = .error "Base reserve is zero")
    ∧ (∀ (cfg : SedaCore.PairConfig) (tok : List Char) (r0 : Nat),
      SedaCore.eqIgnoreAsciiCase tok cfg.base = false →
      SedaCore.eqIgnoreAsciiCase tok cfg.quote = true →
      SedaCore.price_from_reserves cfg tok r0 0 = .error "Base reserve is zero")
    ∧ (∀ (cfg : SedaCore.PairConfig) (tok : List Char) (r0 r1 : Nat),
      SedaCore.eqIgnoreAsciiCase tok cfg.base = true → r0 ≠ 0 →
      cfg.base_decimals ≤ 77 → cfg.quote_decimals ≤ 77 →
      r1 * 10 ^ cfg.base_decimals * SCALE ≤ U256_MAX →
      r0 * 10 ^ cfg.quote_decimals ≤ U256_MAX →
      r1 * 10 ^ cfg.base_decimals * SCALE / (r0 * 10 ^ cfg.quote_decimals) ≤ U128_MAX →
      SedaCore.price_from_reserves cfg tok r0 r1 =
        .ok (r1 * 10 ^ cfg.base_decimals * SCALE / (r0 * 10 ^ cfg.quote_decimals)))
    ∧ (∀ (cfg : SedaCore.PairConfig) (tok : List Char) (r0 r1 : Nat),
      SedaCore.eqIgnoreAsciiCase tok cfg.base = false →
      SedaCore.eqIgnoreAsciiCase tok cfg.quote = true → r1 ≠ 0 →
      cfg.base_decimals ≤ 77 → cfg.quote_decimals ≤ 77 →
      r0 * 10 ^ cfg.base_decimals * SCALE ≤ U256_MAX →
      r1 * 10 ^ cfg.quote_decimals ≤ U256_MAX →
      r0 * 10 ^ cfg.base_decimals * SCALE / (r1 * 10 ^ cfg.quote_decimals) ≤ U128_MAX →
      SedaCore.price_from_reserves cfg tok r0 r1 =
        .ok (r0 * 10 ^ cfg.base_decimals * SCALE / (r1 * 10 ^ cfg.quote_decimals)))
    ∧ (∀ (cfg : EvmPriceFeed.V2Config) (tok : List Char) (r0 r1 : Nat),
      SedaCore.eqIgnoreAsciiCase tok (EvmPriceFeed.lowerAscii cfg.base) = false →
      SedaCore.eqIgnoreAsciiCase tok (EvmPriceFeed.lowerAscii cfg.quote) = false →
      EvmPriceFeed.price_from_v2_core cfg tok r0 r1 = .error "token0 mismatch for pair")
    ∧ (∀ (cfg : EvmPriceFeed.V2Config) (tok : List Char) (r1 : Nat),
      SedaCore.eqIgnoreAsciiCase tok (EvmPriceFeed.lowerAscii cfg.base) = true →
      EvmPriceFeed.price_from_v2_core cfg tok 0 r1 = .error "Base reserve is zero")
    ∧ (∀ (cfg : EvmPriceFeed.V2Config) (tok : List Char) (r0 : Nat),
      SedaCore.eqIgnoreAsciiCase tok (EvmPriceFeed.lowerAscii cfg.base) = false →
      SedaCore.eqIgnoreAsciiCase tok (EvmPriceFeed.lowerAscii cfg.quote) = true →
      EvmPriceFeed.price_from_v2_core cfg tok r0 0 = .error "Base reserve is zero")
    ∧ (∀ (cfg : EvmPriceFeed.V2Config) (tok : List Char) (r0 r1 : Nat),
      SedaCore.eqIgnoreAsciiCase tok (EvmPriceFeed.lowerAscii cfg.base) = true → r0 ≠ 0 →
      cfg.base_decimals ≤ 71 → cfg.quote_decimals ≤ 77 →
      r1 * 10 ^ cfg.base_decimals * SCALE ≤ U256_MAX →
      r0 * 10 ^ cfg.quote_decimals ≤ U256_MAX →
      r1 * 10 ^ cfg.base_decimals * SCALE / (r0 * 10 ^ cfg.quote_decimals) ≤ U128_MAX →
      EvmPriceFeed.price_from_v2_core cfg tok r0 r1 =
        .ok (r1 * 10 ^ cfg.base_decimals * SCALE / (r0 * 10 ^ cfg.quote_decimals)))
    ∧ (∀ (cfg : EvmPriceFeed.V2Config) (tok : List Char) (r0 r1 : Nat),
      SedaCore.eqIgnoreAsciiCase tok (EvmPriceFeed.lowerAscii cfg.base) = false →
      SedaCore.eqIgnoreAsciiCase tok (EvmPriceFeed.lowerAscii cfg.quote) = true → r1 ≠ 0 →
      cfg.base_decimals ≤ 71 → cfg.quote_decimals ≤ 77 →
      r0 * 10 ^ cfg.base_decimals * SCALE ≤ U256_MAX →
      r1 * 10 ^ cfg.quote_decimals ≤ U256_MAX →
      r0 * 10 ^ cfg.base_decimals * SCALE / (r1 * 10 ^ cfg.quote_decimals) ≤ U128_MAX →
      EvmPriceFeed.price_from_v2_core cfg tok r0 r1 =
        .ok (r0 * 10 ^ cfg.base_decimals * SCALE / (r1 * 10 ^ cfg.quote_decimals))) := by
  refine ⟨fun cfg tok r0 r1 hb hq => ?_, fun cfg tok r1 hb => ?_,
    fun cfg tok r0 hb hq => ?_,
    fun cfg tok r0 r1 hb hr0 hbd hqd hnum hden hfit => ?_,
    fun cfg tok r0 r1 hb hq hr1 hbd hqd hnum hden hfit => ?_,
    fun cfg tok r0 r1 hb hq => ?_, fun cfg tok r1 hb => ?_,
    fun cfg tok r0 hb hq => ?_,
    fun cfg tok r0 r1 hb hr0 hbd hqd hnum hden hfit => ?_,
    fun cfg tok r0 r1 hb hq hr1 hbd hqd hnum hden hfit => ?_⟩
  · simp [SedaCore.price_from_reserves, hb, hq]
  · simp [SedaCore.price_from_reserves, hb]
  · simp [SedaCore.price_from_reserves, hb, hq]
  · have h1 : r1 * 10 ^ cfg.base_decimals ≤ U256_MAX :=
      Nat.le_trans (Nat.le_mul_of_pos_right _ (by decide)) hnum
    simp [SedaCore.price_from_reserves, hb, if_neg hr0,
      pow10_u256_exact hbd, pow10_u256_exact hqd, SedaCore.satMul,
      Nat.min_eq_left h1, Nat.min_eq_left hnum, Nat.min_eq_left hden,
      SedaCore.u256_to_u128, Nat.not_lt.mpr hfit]
  · have h1 : r0 * 10 ^ cfg.base_decimals ≤ U256_MAX :=
      Nat.le_trans (Nat.le_mul_of_pos_right _ (by decide)) hnum
    simp [SedaCore.price_from_reserves, hb, hq, if_neg hr1,
      pow10_u256_exact hbd, pow10_u256_exact hqd, SedaCore.satMul,
      Nat.min_eq_left h1, Nat.min_eq_left hnum, Nat.min_eq_left hden,
      SedaCore.u256_to_u128, Nat.not_lt.mpr hfit]
  · simp [EvmPriceFeed.price_from_v2_core, hb, hq]
  · simp [EvmPriceFeed.price_from_v2_core, hb]
  · simp [EvmPriceFeed.price_from_v2_core, hb, hq]
  · have hpow : SedaCore.pow10_u256 (cfg.base_decimals + 6) =
        10 ^ cfg.base_decimals * SCALE := by
      rw [pow10_u256_exact (by omega), pow_add]
      norm_num [SedaCore.SCALE]
    have hnum2 : r1 * (10 ^ cfg.base_decimals * SCALE) ≤ U256_MAX := by
      rw [← Nat.mul_assoc]; exact hnum
    have hfit2 : r1 * (10 ^ cfg.base_decimals * SCALE) / (r0 * 10 ^ cfg.quote_decimals)
        ≤ U128_MAX := by
      rw [← Nat.mul_assoc]; exact hfit
    simp [EvmPriceFeed.price_from_v2_core, hb, if_neg hr0, hpow,
      pow10_u256_exact hqd, SedaCore.satMul, Nat.min_eq_left hnum2,
      Nat.min_eq_left hden, SedaCore.u256_to_u128, Nat.not_lt.mpr hfit2,
      Nat.mul_assoc]
  · have hpow : SedaCore.pow10_u256 (cfg.base_decimals + 6) =
        10 ^ cfg.base_decimals * SCALE := by
      rw [pow10_u256_exact (by omega), pow_add]
      norm_num [SedaCore.SCALE]
    have hnum2 : r0 * (10 ^ cfg.base_decimals * SCALE) ≤ U256_MAX := by
      rw [← Nat.mul_assoc]; exact hnum
    have hfit2 : r0 * (10 ^ cfg.base_decimals * SCALE) / (r1 * 10 ^ cfg.quote_decimals)
        ≤ U128_MAX := by
      rw [← Nat.mul_assoc]; exact hfit
    simp [EvmPriceFeed.price_from_v2_core, hb, hq, if_neg hr1, hpow,
      pow10_u256_exact hqd, SedaCore.satMul, Nat.min_eq_left hnum2,
      Nat.min_eq_left hden, SedaCore.u256_to_u128, Nat.not_lt.mpr hfit2,
      Nat.mul_assoc]

/-- **C4 witness.** A WCRO/USDC-shaped pool (18/6 decimals) with base
reserve `2·10^18` and quote reserve `10·10^6` prices at `5·SCALE`, for the
base-matching and quote-matching orientations of `price_from_reserves` and
for the evm-price-feed `price_from_v2` core. -/
theorem price_from_reserves_amended_witness :
    SedaCore.price_from_reserves
        (SedaCore.PairConfig.mk "B".toList "Q".toList 18 6) "b".toList
        (2 * 10 ^ 18) (10 * 10 ^ 6) =
      .ok (10 * 10 ^ 6 * 10 ^ 18 * SCALE / (2 * 10 ^ 18 * 10 ^ 6))
    ∧ SedaCore.price_from_reserves
        (SedaCore.PairConfig.mk "B".toList "Q".toList 18 6) "q".toList
        (10 * 10 ^ 6) (2 * 10 ^ 18) =
      .ok (10 * 10 ^ 6 * 10 ^ 18 * SCALE / (2 * 10 ^ 18 * 10 ^ 6))
    ∧ EvmPriceFeed.price_from_v2_core
        (EvmPriceFeed.V2Config.mk "B".toList "Q".toList 18 6) "b".toList
        (2 * 10 ^ 18) (10 * 10 ^ 6) =
      .ok (10 * 10 ^ 6 * 10 ^ 18 * SCALE / (2 * 10 ^ 18 * 10 ^ 6)) :=
  ⟨price_from_reserves_amended.2.2.2.1
    (SedaCore.PairConfig.mk "B".toList "Q".toList 18 6) "b".toList
    (2 * 10 ^ 18) (10 * 10 ^ 6) (by decide) (by decide) (by decide) (by decide)
    (by decide) (by decide) (by decide),
   price_from_reserves_amended.2.2.2.2.1
    (SedaCore.PairConfig.mk "B".toList "Q".toList 18 6) "q".toList
    (10 * 10 ^ 6) (2 * 10 ^ 18) (by decide) (by decide) (by decide) (by decide)
    (by decide) (by decide) (by decide) (by decide),
   price_from_reserves_amended.2.2.2.2.2.2.2.2.1
    (EvmPriceFeed.V2Config.mk "B".toList "Q".toList 18 6) "b".toList
    (2 * 10 ^ 18) (10 * 10 ^ 6) (by decide) (by decide) (by decide) (by decide)
    (by decide) (by decide) (by decide)⟩

/-- **C4 counterexample.** With quote reserve `2^250` (18 base decimals) the
first saturating multiplication clamps at `U256::MAX`, so the returned
price differs from the exact formula value required by the claim. -/
theorem price_from_reserves_saturates :
    SedaCore.price_from_reserves
        (SedaCore.PairConfig.mk "B".toList "Q".toList 18 6) "b".toList
        (2 ^ 200) (2 ^ 250) =
      .ok ((2 ^ 256 - 1) / (2 ^ 200 * 10 ^ 6))
    ∧ (2 ^ 256 - 1) / (2 ^ 200 * 10 ^ 6) ≠
        2 ^ 250 * 10 ^ 18 * SCALE / (2 ^ 200 * 10 ^ 6) := by
  exact ⟨by rfl, by decide⟩

namespace SedaCore

/-- `amm_amount_out` (execution_phase.rs lines 392-400): constant-product
output with the 0.3% fee. The `U256` multiplications and the addition are
checked operations that panic on overflow, modelled as errors; the
`reserve_in * 1000` overflow check is subsumed by the check on the full
denominator, which is at least as large. -/
def amm_amount_out (amount_in reserve_in reserve_out : Nat) : Except String Nat :=
  let amount_in_with_fee := amount_in * 997
  if U256_MAX < amount_in_with_fee then .error "panic: U256 overflow"
  else
    let numerator := amount_in_with_fee * reserve_out
    if U256_MAX < numerator then .error "panic: U256 overflow"
    else
      let denominator := reserve_in * 1000 + amount_in_with_fee
      if U256_MAX < denominator then .error "panic: U256 overflow"
      else if denominator = 0 then .error "AMM denominator is zero"
      else .ok (numerator / denominator)

/-- One probe of the sizing binary search (the loop body of
`max_safe_execution_size`, execution_phase.rs lines 368-386): `.ok true`
means the probed size satisfied the slippage bound (record it and search
upward), `.ok false` means zero output or a violated bound (search
downward), `.error` aborts the whole computation. -/
def size_probe (reserve_in reserve_out spot_1e6 mid : Nat) : Except String Bool :=
  match amm_amount_out mid reserve_in reserve_out with
  | .error e => .error e
  | .ok amount_out =>
    if amount_out = 0 then .ok false
    else
      let en := mid * 1000000000000000000
      if U256_MAX < en then .error "panic: U256 overflow"
      else
        match u256_to_u128 (en / amount_out) with
        | .error e => .error e
        | .ok effective_price =>
          match ratio_scaled_u128 (abs_diff_u128 effective_price spot_1e6) spot_1e6 with
          | .error e => .error e
          | .ok slippage => .ok (slippage < SLIPPAGE_LIMIT_1E6)

/-- The fixed-iteration binary-search loop of `max_safe_execution_size`
(execution_phase.rs lines 363-387). In every reachable state
`low + high < 2^256`, so the unchecked `U256` additions cannot overflow and
are modelled exactly; `high = mid.saturating_sub(1)` is the `Nat`
subtraction. -/
def size_search (reserve_in reserve_out spot_1e6 : Nat) :
    Nat → Nat → Nat → Nat → Except String Nat
  | 0, _, _, best => .ok best
  | fuel + 1, low, high, best =>
    let mid := (low + high) / 2
    if mid = 0 then .ok best
    else match size_probe reserve_in reserve_out spot_1e6 mid with
      | .error e => .error e
      | .ok true => size_search reserve_in reserve_out spot_1e6 fuel (mid + 1) high mid
      | .ok false => size_search reserve_in reserve_out spot_1e6 fuel low (mid - 1) best

/-- `max_safe_execution_size` (execution_phase.rs lines 350-390): zero
reserves are rejected, then 28 binary-search iterations over
`[0, reserve_in / 2]`; the final `u256_to_u128(best)` never fails because
`best ≤ reserve_in / 2 < 2^255` always fits... it is retained verbatim. -/
def max_safe_execution_size (reserve_in reserve_out spot_1e6 : Nat) :
    Except String Nat :=
  if reserve_in = 0 ∨ reserve_out = 0 then .error "Reserves are zero"
  else match size_search reserve_in reserve_out spot_1e6 28 0 (reserve_in / 2) 0 with
    | .error e => .error e
    | .ok best => u256_to_u128 best

end SedaCore

/-- Loop invariant of the sizing binary search: whatever the loop returns is
at most `reserve_in / 2` and is either `0` or a probed size that satisfied
the slippage bound. -/
theorem size_search_result (rin rout spot : Nat) :
    ∀ (fuel low high best v : Nat),
      high ≤ rin / 2 → low ≤ high + 1 → best ≤ rin / 2 →
      (best = 0 ∨ SedaCore.size_probe rin rout spot best = .ok true) →
      (low = 0 ∨ SedaCore.size_probe rin rout spot (low - 1) = .ok true) →
      SedaCore.size_search rin rout spot fuel low high best = .ok v →
      v ≤ rin / 2 ∧ (v = 0 ∨ SedaCore.size_probe rin rout spot v = .ok true) := by
  intro fuel
  induction fuel with
  | zero =>
    intro low high best v _ _ hb hbf _ heq
    rw [SedaCore.size_search] at heq
    rw [Except.ok.injEq] at heq
    subst heq
    exact ⟨hb, hbf⟩
  | succ fuel ih =>
    intro low high best v hh hlh hb hbf hlf heq
    rw [SedaCore.size_search] at heq
    by_cases hmid : (low + high) / 2 = 0
    · rw [if_pos hmid, Except.ok.injEq] at heq
      subst heq
      exact ⟨hb, hbf⟩
    · rw [if_neg hmid] at heq
      have hmle : (low + high) / 2 ≤ high := by omega
      rcases hp : SedaCore.size_probe rin rout spot ((low + high) / 2) with e | b
      · rw [hp] at heq
        exact absurd heq (by simp)
      · rw [hp] at heq
        cases b with
        | true =>
          refine ih ((low + high) / 2 + 1) high ((low + high) / 2) v hh (by omega)
            (Nat.le_trans hmle hh) (Or.inr hp) (Or.inr ?_) heq
          simpa using hp
        | false =>
          have hlow : low ≤ (low + high) / 2 := by
            rcases Nat.lt_or_ge high low with h' | h'
            · have hmid_eq : (low + high) / 2 = low - 1 := by omega
              have hl0 : low ≠ 0 := by omega
              rcases hlf with h0 | hptrue
              · exact absurd h0 hl0
              · rw [hmid_eq, hptrue] at hp
                exact absurd hp (by simp)
            · omega
          exact ih low ((low + high) / 2 - 1) best v (by omega) (by omega) hb hbf hlf heq

/-- **C3 (amended).** `max_safe_execution_size` fails when either reserve is
zero; when it returns a value `v`, then `v ≤ reserve_in / 2` and `v` is
either `0` or a trade size whose effective execution price deviates from
the spot price by strictly less than the 1% slippage bound. The bounded
28-iteration binary search, however, is not guaranteed to return the
largest such size once the search interval `[0, reserve_in / 2]` holds more
than about `2^28` points. -/
theorem max_safe_size_amended :
    (∀ rout spot : Nat,
      SedaCore.max_safe_execution_size 0 rout spot = .error "Reserves are zero")
    ∧ (∀ rin spot : Nat,
      SedaCore.max_safe_execution_size rin 0 spot = .error "Reserves are zero")
    ∧ (∀ rin rout spot v : Nat,
      SedaCore.max_safe_execution_size rin rout spot = .ok v →
      v ≤ rin / 2
        ∧ (v = 0 ∨ SedaCore.size_probe rin rout spot v = .ok true)) := by
  refine ⟨fun rout spot => ?_, fun rin spot => ?_, fun rin rout spot v heq => ?_⟩
  · simp [SedaCore.max_safe_execution_size]
  · simp [SedaCore.max_safe_execution_size]
  · unfold SedaCore.max_safe_execution_size at heq
    by_cases hz : rin = 0 ∨ rout = 0
    · rw [if_pos hz] at heq
      exact absurd heq (by simp)
    · rw [if_neg hz] at heq
      rcases hs : SedaCore.size_search rin rout spot 28 0 (rin / 2) 0 with e | best
      · rw [hs] at heq
        exact absurd heq (by simp)
      · rw [hs] at heq
        simp only [SedaCore.u256_to_u128] at heq
        by_cases hbig : U128_MAX < best
        · rw [if_pos hbig] at heq
          exact absurd heq (by simp)
        · rw [if_neg hbig, Except.ok.injEq] at heq
          subst heq
          exact size_search_result rin rout spot 28 0 (rin / 2) 0 best
            (Nat.le_refl _) (by omega) (Nat.zero_le _) (Or.inl rfl) (Or.inl rfl) hs

/-- **C3 witness.** A small pool (`reserve_in = reserve_out = 10^6`,
spot `≈ 1.003·10^18`) where the search returns `9981`, which therefore
satisfies the slippage bound and the range bound. -/
theorem max_safe_size_amended_witness :
    9981 ≤ 1000000 / 2
    ∧ (9981 = 0
      ∨ SedaCore.size_probe 1000000 1000000 1003009027081243731 9981 = .ok true) :=
  max_safe_size_amended.2.2 1000000 1000000 1003009027081243731 9981 (by rfl)

/-- **C3 counterexample.** With `reserve_in = reserve_out = 10^30` and spot
`1003009027081243731` the 28-iteration search returns
`10030088946223258972167968749`, yet the strictly larger size
`10030088946223258972167968750` still lies in `[0, reserve_in / 2]` and
satisfies the slippage bound — so the returned value is not the largest
feasible trade size required by the claim. -/
theorem max_safe_size_not_maximal :
    SedaCore.max_safe_execution_size (10 ^ 30) (10 ^ 30) 1003009027081243731 =
      .ok 10030088946223258972167968749
    ∧ SedaCore.size_probe (10 ^ 30) (10 ^ 30) 1003009027081243731
        10030088946223258972167968750 = .ok true
    ∧ 10030088946223258972167968750 ≤ 10 ^ 30 / 2 :=
  ⟨by rfl, by rfl, by decide⟩

namespace JsonModel

/-- Whitespace recognised by `str::trim` and the JSON grammar (the inputs
relevant to these pipelines are ASCII). -/
def isWs (c : Char) : Bool := c = ' ' ∨ c = '\t' ∨ c = '\n' ∨ c = '\r'

/-- `str::trim`: drop whitespace from both ends. -/
def rustTrim (cs : List Char) : List Char :=
  ((cs.dropWhile isWs).reverse.dropWhile isWs).reverse

/-- `str::to_uppercase` restricted to ASCII, as used on pair names. -/
def upperAscii (cs : List Char) : List Char :=
  cs.map fun c => if 'a' ≤ c ∧ c ≤ 'z' then Char.ofNat (c.toNat - 32) else c

/-- `serde_json::Value`. Numeric literals are validated by the grammar but
their value is never consumed by any pipeline, so only their presence is
recorded. -/
inductive Json where
  | null
  | bool (b : Bool)
  | num
  | str (s : List Char)
  | arr (xs : List Json)
  | obj (fields : List (List Char × Json))

/-- The `0x7b` opening-brace character. -/
def lbrace : Char := Char.ofNat 123

/-- The `0x7d` closing-brace character. -/
def rbrace : Char := Char.ofNat 125

/-- The `0x22` double-quote character. -/
def dquote : Char := Char.ofNat 34

def skipWs (cs : List Char) : List Char := cs.dropWhile isWs

def hexVal (c : Char) : Option Nat :=
  if '0' ≤ c ∧ c ≤ '9' then some (c.toNat - 48)
  else if 'a' ≤ c ∧ c ≤ 'f' then some (c.toNat - 87)
  else if 'A' ≤ c ∧ c ≤ 'F' then some (c.toNat - 55)
  else none

/-- JSON string body after the opening quote, with the escape sequences of
the grammar (lone surrogate escapes are rejected; surrogate-pair joining is
not modelled since no pipeline input uses it). -/
def parseStringBody : Nat → List Char → Option (List Char × List Char)
  | 0, _ => none
  | fuel + 1, cs =>
    match cs with
    | [] => none
    | c :: rest =>
      if c = dquote then some ([], rest)
      else if c = '\\' then
        match rest with
        | [] => none
        | e :: rest2 =>
          if e = dquote then
            (parseStringBody fuel rest2).map fun p => (dquote :: p.1, p.2)
          else if e = '\\' then
            (parseStringBody fuel rest2).map fun p => ('\\' :: p.1, p.2)
          else if e = '/' then
            (parseStringBody fuel rest2).map fun p => ('/' :: p.1, p.2)
          else if e = 'b' then
            (parseStringBody fuel rest2).map fun p => (Char.ofNat 8 :: p.1, p.2)
          else if e = 'f' then
            (parseStringBody fuel rest2).map fun p => (Char.ofNat 12 :: p.1, p.2)
          else if e = 'n' then
            (parseStringBody fuel rest2).map fun p => ('\n' :: p.1, p.2)
          else if e = 'r' then
            (parseStringBody fuel rest2).map fun p => ('\r' :: p.1, p.2)
          else if e = 't' then
            (parseStringBody fuel rest2).map fun p => ('\t' :: p.1, p.2)
          else if e = 'u' then
            match rest2 with
            | h1 :: h2 :: h3 :: h4 :: rest3 =>
              match hexVal h1, hexVal h2, hexVal h3, hexVal h4 with
              | some a, some b, some c3, some d =>
                let n := ((a * 16 + b) * 16 + c3) * 16 + d
                if 55296 ≤ n ∧ n ≤ 57343 then none
                else (parseStringBody fuel rest3).map fun p => (Char.ofNat n :: p.1, p.2)
              | _, _, _, _ => none
            | _ => none
          else none
      else if c.toNat < 32 then none
      else (parseStringBody fuel rest).map fun p => (c :: p.1, p.2)

def spanDigits (cs : List Char) : List Char × List Char :=
  (cs.takeWhile fun c => c.isDigit, cs.dropWhile fun c => c.isDigit)

/-- Optional fraction and exponent of a JSON number. -/
def parseNumberTail (cs : List Char) : Option (List Char) :=
  let afterFrac :=
    match cs with
    | '.' :: rest =>
      let p := spanDigits rest
      if p.1 = [] then none else some p.2
    | _ => some cs
  match afterFrac with
  | none => none
  | some cs2 =>
    match cs2 with
    | e :: rest =>
      if e = 'e' ∨ e = 'E' then
        let rest2 :=
          match rest with
          | s :: r => if s = '+' ∨ s = '-' then r else rest
          | [] => rest
        let p := spanDigits rest2
        if p.1 = [] then none else some p.2
      else some cs2
    | [] => some cs2

/-- JSON number grammar `-? int frac? exp?` (the value is not retained). -/
def parseNumber (cs : List Char) : Option (List Char) :=
  let cs1 :=
    match cs with
    | '-' :: rest => rest
    | _ => cs
  match cs1 with
  | [] => none
  | '0' :: rest => parseNumberTail rest
  | c :: _ =>
    if '1' ≤ c ∧ c ≤ '9' then parseNumberTail (spanDigits cs1).2
    else none

mutual

/-- Fuel-indexed recursive-descent parser for one JSON value, returning the
unconsumed rest; any fuel of at least the input length succeeds on valid
input. -/
def parseValue : Nat → List Char → Option (Json × List Char)
  | 0, _ => none
  | fuel + 1, cs0 =>
    match skipWs cs0 with
    | [] => none
    | c :: rest =>
      if c = dquote then
        (parseStringBody (rest.length + 1) rest).map fun p => (Json.str p.1, p.2)
      else if c = lbrace then
        match skipWs rest with
        | c2 :: rest2 =>
          if c2 = rbrace then some (Json.obj [], rest2)
          else
            (parseObjFields fuel (c2 :: rest2)).map fun p => (Json.obj p.1, p.2)
        | [] => none
      else if c = '[' then
        match skipWs rest with
        | c2 :: rest2 =>
          if c2 = ']' then some (Json.arr [], rest2)
          else
            (parseArrItems fuel (c2 :: rest2)).map fun p => (Json.arr p.1, p.2)
        | [] => none
      else if c = 'n' then
        match rest with
        | 'u' :: 'l' :: 'l' :: rest2 => some (Json.null, rest2)
        | _ => none
      else if c = 't' then
        match rest with
        | 'r' :: 'u' :: 'e' :: rest2 => some (Json.bool true, rest2)
        | _ => none
      else if c = 'f' then
        match rest with
        | 'a' :: 'l' :: 's' :: 'e' :: rest2 => some (Json.bool false, rest2)
        | _ => none
      else
        (parseNumber (c :: rest)).map fun rest2 => (Json.num, rest2)

/-- Comma-separated array items followed by the closing bracket. -/
def parseArrItems : Nat → List Char → Option (List Json × List Char)
  | 0, _ => none
  | fuel + 1, cs =>
    match parseValue fuel cs with
    | none => none
    | some (v, rest) =>
      match skipWs rest with
      | c :: rest2 =>
        if c = ',' then
          (parseArrItems fuel (skipWs rest2)).map fun p => (v :: p.1, p.2)
        else if c = ']' then some ([v], rest2)
        else none
      | [] => none

/-- Comma-separated `"key": value` fields followed by the closing brace. -/
def parseObjFields : Nat → List Char → Option (List (List Char × Json) × List Char)
  | 0, _ => none
  | fuel + 1, cs =>
    match cs with
    | c :: rest =>
      if c = dquote then
        match parseStringBody (rest.length + 1) rest with
        | none => none
        | some (key, rest2) =>
          match skipWs rest2 with
          | ':' :: rest3 =>
            match parseValue fuel rest3 with
            | none => none
            | some (v, rest4) =>
              match skipWs rest4 with
              | c2 :: rest5 =>
                if c2 = ',' then
                  (parseObjFields fuel (skipWs rest5)).map fun p => ((key, v) :: p.1, p.2)
                else if c2 = rbrace then some ([(key, v)], rest5)
                else none
              | [] => none
          | _ => none
      else none
    | [] => none

end

/-- `serde_json::from_str` on a candidate input: parse one value and require
only whitespace afterwards. -/
def jsonParse (cs : List Char) : Option Json :=
  match parseValue (2 * cs.length + 2) cs with
  | some (v, rest) => if skipWs rest = [] then some v else none
  | none => none

/-- Last-occurrence object lookup (`serde_json::Map` keeps the last
duplicate key). -/
def objGet (fields : List (List Char × Json)) (key : List Char) : Option Json :=
  (fields.reverse.find? fun kv => kv.1 == key).map fun kv => kv.2

/-- Deserialization of the optional `pair` field of a JSON object: missing
or `null` is `None`, a string is `Some`, any other type is a
deserialization error (outer `none`). -/
def pairFieldOf (fields : List (List Char × Json)) : Option (Option (List Char)) :=
  match objGet fields ("pair".toList) with
  | none => some none
  | some Json.null => some none
  | some (Json.str s) => some (some s)
  | some _ => none

/-- serde's derived `Deserialize` for
`struct OracleInput { pair: Option<String> }` (seda-core execution_phase.rs
lines 105-108): only JSON objects are accepted, unknown fields are
ignored. -/
def oracleInputOfJson : Json → Option (Option (List Char))
  | Json.obj fields => pairFieldOf fields
  | _ => none

end JsonModel

namespace SedaCore

/-- `parse_input_pair` (seda-core execution_phase.rs lines 118-135): trim,
reject empty input, deserialize `OracleInput` with `serde_json::from_str`
(so the input must be a JSON object — a bare identifier is not valid JSON),
require the `pair` field, uppercase it and compare against
`TARGET_PAIR = "WCRO-USDC"`. The two serde failure strings stand in for the
propagated `serde_json` error messages. -/
def parse_input_pair (input : List Char) : Except String (List Char) :=
  let trimmed := JsonModel.rustTrim input
  if trimmed = [] then .error "Missing input: pair required"
  else
    match JsonModel.jsonParse trimmed with
    | none => .error "serde_json: invalid JSON"
    | some v =>
      match JsonModel.oracleInputOfJson v with
      | none => .error "serde_json: invalid OracleInput"
      | some none => .error "Missing pair in input"
      | some (some p) =>
        let pair := JsonModel.upperAscii p
        if pair = "WCRO-USDC".toList then .ok pair
        else .error "Unsupported pair"

end SedaCore

namespace MultiPriceFeed

/-- `ALLOWED_PAIRS` (multi-price-feed execution_phase.rs line 5). -/
def ALLOWED_PAIRS : List (List Char) :=
  ["BTC-USD".toList, "ETH-USD".toList, "SOL-USD".toList,
    "BTC-USDT".toList, "ETH-USDT".toList]

/-- `parse_pair_input` (multi-price-feed execution_phase.rs lines 7-23):
trim, reject empty; a JSON object with a string `pair` field yields that
field, a JSON string yields itself, and anything else — including input
that is not valid JSON, i.e. a bare identifier — yields the trimmed raw
input. -/
def parse_pair_input (raw : List Char) : Except String (List Char) :=
  let trimmed := JsonModel.rustTrim raw
  if trimmed = [] then .error "Missing input for price pair"
  else
    match JsonModel.jsonParse trimmed with
    | some (JsonModel.Json.obj fields) =>
      match JsonModel.objGet fields ("pair".toList) with
      | some (JsonModel.Json.str p) => .ok p
      | _ => .ok trimmed
    | some (JsonModel.Json.str s) => .ok s
    | some _ => .ok trimmed
    | none => .ok trimmed

/-- Input validation prelude of the multi-price-feed `execution_phase`
(lines 25-33): uppercase the parsed pair and require membership in
`ALLOWED_PAIRS`; the failure is reported before any feed is queried. -/
def execution_input_check (raw : List Char) : Except String (List Char) :=
  match parse_pair_input raw with
  | .error e => .error e
  | .ok p =>
    let pair := JsonModel.upperAscii p
    if ALLOWED_PAIRS.contains pair then .ok pair else .error "Unsupported pair"

end MultiPriceFeed

namespace EvmPriceFeed

/-- `parse_input_pair` (evm-price-feed execution_phase.rs lines 34-50):
like the multi-price-feed parser but empty input falls back to
`DEFAULT_PAIR = "WCRO-USDC"`. -/
def parse_input_pair (input : List Char) : Except String (List Char) :=
  let trimmed := JsonModel.rustTrim input
  if trimmed = [] then .ok ("WCRO-USDC".toList)
  else
    match JsonModel.jsonParse trimmed with
    | some (JsonModel.Json.obj fields) =>
      match JsonModel.objGet fields ("pair".toList) with
      | some (JsonModel.Json.str p) => .ok p
      | _ => .ok trimmed
    | some (JsonModel.Json.str s) => .ok s
    | some _ => .ok trimmed
    | none => .ok trimmed

/-- `validate_pair` (evm-price-feed execution_phase.rs lines 52-58). -/
def validate_pair (pair : List Char) : Except String (List Char) :=
  let up := JsonModel.upperAscii pair
  if up = "WCRO-USDC".toList ∨ up = "VVS-WCRO".toList ∨ up = "WBTC-WCRO".toList
      ∨ up = "WCRO-ETH".toList ∨ up = "USDT-USDC".toList then .ok up
  else .error "Unsupported pair"

/-- Input validation prelude of the evm-price-feed `execution_phase`
(lines 60-62): parse then validate, before any RPC call is made. -/
def execution_input_check (input : List Char) : Except String (List Char) :=
  match parse_input_pair input with
  | .error e => .error e
  | .ok p => validate_pair p

end EvmPriceFeed

/-- An `OracleInput` deserialization yielding `pair = Some p` can only come
from a JSON object whose `pair` field is the string `p`. -/
theorem oracleInput_pair_shape (v : JsonModel.Json) (p : List Char) :
    JsonModel.oracleInputOfJson v = some (some p) →
    ∃ fields, v = JsonModel.Json.obj fields
      ∧ JsonModel.objGet fields ("pair".toList) = some (JsonModel.Json.str p) := by
  intro h
  cases v with
  | obj fields =>
    refine ⟨fields, rfl, ?_⟩
    have h2 : JsonModel.pairFieldOf fields = some (some p) := h
    unfold JsonModel.pairFieldOf at h2
    rcases hg : JsonModel.objGet fields ("pair".toList) with _ | j
    · rw [hg] at h2
      simp at h2
    · rw [hg] at h2
      cases j <;> simp_all
  | null => simp [JsonModel.oracleInputOfJson] at h
  | bool b => simp [JsonModel.oracleInputOfJson] at h
  | num => simp [JsonModel.oracleInputOfJson] at h
  | str s => simp [JsonModel.oracleInputOfJson] at h
  | arr xs => simp [JsonModel.oracleInputOfJson] at h

/-- **C9 (amended).** In the multi-price-feed and evm-price-feed variants
both a bare pair identifier (any non-JSON input) and a JSON object with a
string `pair` field are accepted by parsing, and the parsed pair is then
validated before any network call: a supported pair is accepted
(uppercased) and any other pair fails with the unsupported-pair error; the
evm variant maps empty input to its default pair. The seda-core variant,
however, accepts only a JSON object whose `pair` field names
(case-insensitively) `WCRO-USDC`: every accepted input parses as such an
object, an object naming any other pair is rejected, and any input that is
not valid JSON — including a bare pair identifier — fails with an input
error before any network call. -/
theorem input_parsing_amended :
    (∀ input : List Char, JsonModel.rustTrim input ≠ [] →
      JsonModel.jsonParse (JsonModel.rustTrim input) = none →
      SedaCore.parse_input_pair input = .error "serde_json: invalid JSON")
    ∧ (∀ (input : List Char) (fields : List (List Char × JsonModel.Json)) (p : List Char),
      JsonModel.rustTrim input ≠ [] →
      JsonModel.jsonParse (JsonModel.rustTrim input) = some (JsonModel.Json.obj fields) →
      JsonModel.objGet fields ("pair".toList) = some (JsonModel.Json.str p) →
      SedaCore.parse_input_pair input =
        (if JsonModel.upperAscii p = "WCRO-USDC".toList
          then .ok (JsonModel.upperAscii p) else .error "Unsupported pair"))
    ∧ (∀ input pair : List Char,
      SedaCore.parse_input_pair input = .ok pair →
      pair = "WCRO-USDC".toList
        ∧ ∃ fields p, JsonModel.jsonParse (JsonModel.rustTrim input) =
            some (JsonModel.Json.obj fields)
          ∧ JsonModel.objGet fields ("pair".toList) = some (JsonModel.Json.str p)
          ∧ JsonModel.upperAscii p = "WCRO-USDC".toList)
    ∧ SedaCore.parse_input_pair ("\x7b\"pair\": \"wcro-usdc\"\x7d".toList) =
        .ok ("WCRO-USDC".toList)
    ∧ (∀ input : List Char, JsonModel.rustTrim input ≠ [] →
      JsonModel.jsonParse (JsonModel.rustTrim input) = none →
      MultiPriceFeed.parse_pair_input input = .ok (JsonModel.rustTrim input))
    ∧ (∀ (input : List Char) (fields : List (List Char × JsonModel.Json)) (p : List Char),
      JsonModel.rustTrim input ≠ [] →
      JsonModel.jsonParse (JsonModel.rustTrim input) = some (JsonModel.Json.obj fields) →
      JsonModel.objGet fields ("pair".toList) = some (JsonModel.Json.str p) →
      MultiPriceFeed.execution_input_check input =
        (if MultiPriceFeed.ALLOWED_PAIRS.contains (JsonModel.upperAscii p)
          then .ok (JsonModel.upperAscii p) else .error "Unsupported pair"))
    ∧ (∀ input : List Char, JsonModel.rustTrim input ≠ [] →
      JsonModel.jsonParse (JsonModel.rustTrim input) = none →
      MultiPriceFeed.execution_input_check input =
        (if MultiPriceFeed.ALLOWED_PAIRS.contains (JsonModel.upperAscii (JsonModel.rustTrim input))
          then .ok (JsonModel.upperAscii (JsonModel.rustTrim input))
          else .error "Unsupported pair"))
    ∧ MultiPriceFeed.execution_input_check ("btc-usd".toList) = .ok ("BTC-USD".toList)
    ∧ MultiPriceFeed.execution_input_check ("FOO-BAR".toList) = .error "Unsupported pair"
    ∧ (∀ (input : List Char) (fields : List (List Char × JsonModel.Json)) (p : List Char),
      JsonModel.rustTrim input ≠ [] →
      JsonModel.jsonParse (JsonModel.rustTrim input) = some (JsonModel.Json.obj fields) →
      JsonModel.objGet fields ("pair".toList) = some (JsonModel.Json.str p) →
      EvmPriceFeed.execution_input_check input = EvmPriceFeed.validate_pair p)
    ∧ (∀ input : List Char, JsonModel.rustTrim input ≠ [] →
      JsonModel.jsonParse (JsonModel.rustTrim input) = none →
      EvmPriceFeed.execution_input_check input =
        EvmPriceFeed.validate_pair (JsonModel.rustTrim input))
    ∧ (∀ p : List Char,
      EvmPriceFeed.validate_pair p =
        (if JsonModel.upperAscii p = "WCRO-USDC".toList
            ∨ JsonModel.upperAscii p = "VVS-WCRO".toList
            ∨ JsonModel.upperAscii p = "WBTC-WCRO".toList
            ∨ JsonModel.upperAscii p = "WCRO-ETH".toList
            ∨ JsonModel.upperAscii p = "USDT-USDC".toList
          then .ok (JsonModel.upperAscii p) else .error "Unsupported pair"))
    ∧ EvmPriceFeed.execution_input_check [] = .ok ("WCRO-USDC".toList)
    ∧ EvmPriceFeed.execution_input_check ("wcro-usdc".toList) = .ok ("WCRO-USDC".toList)
    ∧ EvmPriceFeed.execution_input_check ("FOO-BAR".toList) = .error "Unsupported pair" := by
  refine ⟨fun input hne hnone => ?_, fun input fields p hne hj hp => ?_,
    fun input pair h => ?_, by rfl, fun input hne hnone => ?_,
    fun input fields p hne hj hp => ?_, fun input hne hnone => ?_,
    by rfl, by rfl, fun input fields p hne hj hp => ?_,
    fun input hne hnone => ?_, fun p => rfl, by rfl, by rfl, by rfl⟩
  · simp only [SedaCore.parse_input_pair, if_neg hne, hnone]
  · have ho : JsonModel.oracleInputOfJson (JsonModel.Json.obj fields) = some (some p) := by
      have h2 : JsonModel.oracleInputOfJson (JsonModel.Json.obj fields) =
          JsonModel.pairFieldOf fields := rfl
      rw [h2]
      unfold JsonModel.pairFieldOf
      rw [hp]
    simp only [SedaCore.parse_input_pair, if_neg hne, hj, ho]
  · by_cases h1 : JsonModel.rustTrim input = []
    · have hr : SedaCore.parse_input_pair input = .error "Missing input: pair required" := by
        simp only [SedaCore.parse_input_pair, if_pos h1]
      rw [hr] at h
      simp at h
    · rcases hj : JsonModel.jsonParse (JsonModel.rustTrim input) with _ | v
      · have hr : SedaCore.parse_input_pair input = .error "serde_json: invalid JSON" := by
          simp only [SedaCore.parse_input_pair, if_neg h1, hj]
        rw [hr] at h
        simp at h
      · rcases ho : JsonModel.oracleInputOfJson v with _ | op
        · have hr : SedaCore.parse_input_pair input =
              .error "serde_json: invalid OracleInput" := by
            simp only [SedaCore.parse_input_pair, if_neg h1, hj, ho]
          rw [hr] at h
          simp at h
        · rcases op with _ | p
          · have hr : SedaCore.parse_input_pair input = .error "Missing pair in input" := by
              simp only [SedaCore.parse_input_pair, if_neg h1, hj, ho]
            rw [hr] at h
            simp at h
          · have hr : SedaCore.parse_input_pair input =
                (if JsonModel.upperAscii p = "WCRO-USDC".toList
                  then .ok (JsonModel.upperAscii p) else .error "Unsupported pair") := by
              simp only [SedaCore.parse_input_pair, if_neg h1, hj, ho]
            rw [hr] at h
            by_cases ht : JsonModel.upperAscii p = "WCRO-USDC".toList
            · rw [if_pos ht, Except.ok.injEq] at h
              obtain ⟨fields, hv, hg⟩ := oracleInput_pair_shape v p ho
              subst hv
              exact ⟨by rw [← h, ht], fields, p, rfl, hg, ht⟩
            · rw [if_neg ht] at h
              simp at h
  · simp only [MultiPriceFeed.parse_pair_input, if_neg hne, hnone]
  · have hpp : MultiPriceFeed.parse_pair_input input = .ok p := by
      simp only [MultiPriceFeed.parse_pair_input, if_neg hne, hj, hp]
    simp only [MultiPriceFeed.execution_input_check, hpp]
  · have hpp : MultiPriceFeed.parse_pair_input input = .ok (JsonModel.rustTrim input) := by
      simp only [MultiPriceFeed.parse_pair_input, if_neg hne, hnone]
    simp only [MultiPriceFeed.execution_input_check, hpp]
  · have hpp : EvmPriceFeed.parse_input_pair input = .ok p := by
      simp only [EvmPriceFeed.parse_input_pair, if_neg hne, hj, hp]
    simp only [EvmPriceFeed.execution_input_check, hpp]
  · have hpp : EvmPriceFeed.parse_input_pair input = .ok (JsonModel.rustTrim input) := by
      simp only [EvmPriceFeed.parse_input_pair, if_neg hne, hnone]
    simp only [EvmPriceFeed.execution_input_check, hpp]

/-- **C9 witness.** The universal rejection clause instantiated at the
non-JSON input `hello`, which the seda-core parser rejects before any
network call. -/
theorem input_parsing_amended_witness :
    SedaCore.parse_input_pair ("hello".toList) = .error "serde_json: invalid JSON" :=
  input_parsing_amended.1 ("hello".toList) (by decide) (by rfl)

/-- **C9 counterexample.** The bare supported pair identifier `WCRO-USDC`
is rejected by the seda-core pipeline's input parsing (it is not valid
JSON), contradicting the claim that a bare token/pair identifier is
accepted in every pipeline variant. -/
theorem core_rejects_bare_pair_identifier :
    SedaCore.parse_input_pair ("WCRO-USDC".toList) =
      .error "serde_json: invalid JSON" := by
  rfl
